import Mathlib

/-!
Verification development for the ts-errors-gpt VS Code extension
(`src/extension.ts`).

The extension is shallowly embedded as pure Lean functions:

* UI and network side effects (`showErrorMessage`, `showInformationMessage`,
  `showQuickPick`, the OpenAI call, the webview panel, secret storage) are
  recorded as `Event`s in a trace, or modelled as explicit state
  (the secret store is an association list).
* External inputs (the workspace root, the `tsconfig.json` lookup result,
  whether the source file could be loaded, the semantic diagnostics returned
  by the TypeScript program, the user's quick-pick choice, the stored API
  key, the active editor's document and the OpenAI chat service) are fields
  of an `Env` record; each run of the command is a pure function of `Env`.
* `console.log` debug output is not modelled, except for the `console.log`
  in the `catch` block of `getOpenAISuggestion` (recorded as
  `Event.logError`), which the specification explicitly references.
-/

namespace TsErrorsGpt

/-- A TypeScript `DiagnosticMessageChain`: a message plus nested details
(`{ messageText, next }`). -/
inductive MessageChain where
  | mk : String → List MessageChain → MessageChain

/-- `ts.Diagnostic.messageText : string | DiagnosticMessageChain`. -/
inductive MessageText where
  | str : String → MessageText
  | chain : MessageChain → MessageText

/-- `indent` levels of two-space indentation, as produced by
`ts.flattenDiagnosticMessageText`. -/
def indentSpaces : Nat → String
  | 0 => ""
  | n + 1 => indentSpaces n ++ "  "

mutual
/-- Flattening of a `DiagnosticMessageChain` as implemented by the external
`ts.flattenDiagnosticMessageText`: nested messages are separated by the
given newline string and indented two spaces per level. -/
def flattenChain (newLine : String) : MessageChain → Nat → String
  | MessageChain.mk messageText next, indent =>
      (if indent = 0 then "" else newLine ++ indentSpaces indent) ++ messageText ++
        flattenChainList newLine next (indent + 1)

/-- Flattening of a list of nested `DiagnosticMessageChain`s at a given
indentation level. -/
def flattenChainList (newLine : String) : List MessageChain → Nat → String
  | [], _ => ""
  | c :: cs, indent => flattenChain newLine c indent ++ flattenChainList newLine cs indent
end

/-- `ts.flattenDiagnosticMessageText(messageText, newLine)`: a plain string is
returned as is, a chain is flattened recursively. -/
def flattenDiagnosticMessageText (messageText : MessageText) (newLine : String) : String :=
  match messageText with
  | MessageText.str s => s
  | MessageText.chain c => flattenChain newLine c 0

/-- A semantic diagnostic as used by the extension.  `file` is
`some (line, character)` when `diagnostic.file` is present, in which case the
pair is the result of `diagnostic.file.getLineAndCharacterOfPosition
(diagnostic.start)` (an external, deterministic computation which we record
directly by its value); it is `none` when `diagnostic.file` is absent. -/
structure Diagnostic where
  file : Option (Nat × Nat)
  messageText : MessageText

/-- The `(line, character)` position the extension computes for a diagnostic:
`diagnostic.file ? getLineAndCharacterOfPosition(start) : {line 0, character 0}`. -/
def diagnosticPos (d : Diagnostic) : Nat × Nat := d.file.getD (0, 0)

/-- One entry of the `errorLines` array built in `getTypescriptErrors`
(quick-pick item: `{ label, line, character, error }`). -/
structure ErrorLine where
  label : String
  line : Nat
  character : Nat
  error : String
deriving DecidableEq

/-- The quick-pick entry built from one diagnostic in
`getTypescriptErrors` (lines 175-186 of `extension.ts`). -/
def toErrorLine (d : Diagnostic) : ErrorLine :=
  { label := "Line " ++ toString ((diagnosticPos d).1 + 1) ++ ": " ++
      flattenDiagnosticMessageText d.messageText "\n"
    line := (diagnosticPos d).1
    character := (diagnosticPos d).2
    error := flattenDiagnosticMessageText d.messageText "\n" }

/-- `diagnostics.map(...)` producing the displayed quick-pick items. -/
def errorLinesOf (diagnostics : List Diagnostic) : List ErrorLine :=
  diagnostics.map toErrorLine

/-- `getErrorMessageForLine(line, diagnostics)` from `extension.ts`
(lines 69-81): scan the diagnostics in order and return the flattened
message of the first one whose computed line equals `line`. -/
def getErrorMessageForLine (line : Nat) : List Diagnostic → Option String
  | [] => none
  | d :: ds =>
      if (diagnosticPos d).1 = line then
        some (flattenDiagnosticMessageText d.messageText "\n")
      else getErrorMessageForLine line ds

/-- One message of a chat-completion request. -/
structure ChatMessage where
  role : String
  content : String
deriving DecidableEq

/-- The request body passed to `openai.createChatCompletion` in
`getOpenAISuggestion` (lines 48-59 of `extension.ts`). -/
structure ChatRequest where
  model : String
  messages : List ChatMessage
  max_tokens : Nat
  n : Nat
  temperature : ℚ
deriving DecidableEq

/-- The prompt template of `getOpenAISuggestion`.  Argument names follow the
parameters of `getOpenAISuggestion(error, codeSnippet, apiKey, lineSnippet)`;
the template interpolates `error`, then `lineSnippet`, then `codeSnippet`. -/
def promptContent (error codeSnippet lineSnippet : String) : String :=
  "Act as a TypeScript engineer. You received the following error: " ++ error ++
    ". This is the line that it is thrown from: " ++ lineSnippet ++
    ". Here is the surrounding code with the snippet I pasted included: " ++ codeSnippet ++
    ". Explain the error with better detail from the context."

/-- The full request object built by `getOpenAISuggestion`. -/
def mkChatRequest (error codeSnippet lineSnippet : String) : ChatRequest :=
  { model := "gpt-3.5-turbo"
    messages := [{ role := "user", content := promptContent error codeSnippet lineSnippet }]
    max_tokens := 1000
    n := 1
    temperature := (1 : ℚ) / 2 }

/-- `response.choices[0].message.content` with every step optional, as in the
optional-chaining expression of line 60 of `extension.ts`. -/
structure ResponseMessage where
  content : Option String

/-- One candidate of the chat-completion response. -/
structure ChatChoice where
  message : Option ResponseMessage

/-- The `data` payload of the chat-completion response. -/
structure ChatResponseData where
  choices : List ChatChoice

/-- The chat-completion response (`response?.data` may itself be absent). -/
structure ChatResponse where
  data : Option ChatResponseData

/-- The optional chain `response?.data?.choices[0]?.message?.content`. -/
def contentChain (response : ChatResponse) : Option String :=
  ((response.data.bind (fun d => d.choices.head?)).bind (fun c => c.message)).bind
    (fun m => m.content)

/-- `response?.data?.choices[0]?.message?.content || ''`.  Note that `||`
maps both an absent content and the (falsy) empty string to `''`; since the
empty string maps to itself either way, `Option.getD` is the same function. -/
def firstChoiceContent (response : ChatResponse) : String :=
  match contentChain response with
  | some suggestion => suggestion
  | none => ""

/-- The external OpenAI client: from the API key (held by the
`Configuration`) and the request body to either a response or a thrown
error. -/
def ChatService : Type :=
  String → ChatRequest → Except String ChatResponse

/-- Observable actions of the extension, recorded in order. -/
inductive Event where
  | showError : String → Event
  | showInfo : String → Event
  | showQuickPick : List ErrorLine → Event
  | createProgram : Event
  | getSemanticDiagnostics : Event
  | chatRequest : ChatRequest → Event
  | logError : Event
  | present : String → Event
  | storeSecret : String → String → Event
deriving DecidableEq

/-- `getOpenAISuggestion(error, codeSnippet, apiKey, lineSnippet)`
(lines 40-66 of `extension.ts`): build the request, call the service; on
success return the first choice content (or the empty string), on a thrown
error log it and return the empty string.  The result is paired with the
trace of events. -/
def getOpenAISuggestion (service : ChatService)
    (error codeSnippet apiKey lineSnippet : String) : String × List Event :=
  let req := mkChatRequest error codeSnippet lineSnippet
  match service apiKey req with
  | Except.ok response => (firstChoiceContent response, [Event.chatRequest req])
  | Except.error _e => ("", [Event.chatRequest req, Event.logError])

/-- The active editor's text document as used after selection:
`document.lineAt(n).text` and `document.getText()`. -/
structure EditorDocument where
  lines : List String

/-- `document.getText()`: the full document text. -/
def docText (doc : EditorDocument) : String := String.intercalate "\n" doc.lines

/-- `document.lineAt(n).text`.  (VS Code would throw for an out-of-range
line; the diagnostics of the analysed file always lie inside the analysed
text, and no claim depends on the out-of-range case, so we default to `""`.) -/
def lineTextAt (doc : EditorDocument) (n : Nat) : String := doc.lines.getD n ""

/-- External inputs of one run of the `extension.getTsErrors` command:
host state, service results and the user's choices.  Each field records the
value the corresponding external call returns during the run. -/
structure Env where
  /-- `vscode.workspace.workspaceFolders` (first folder's `fsPath`), `none`
  when no workspace folder is open. -/
  workspaceRoot : Option String
  /-- result of `ts.findConfigFile(workspaceRoot, ts.sys.fileExists, 'tsconfig.json')`. -/
  tsConfigFile : Option String
  /-- whether `program.getSourceFile(document.fileName)` returns a file. -/
  sourceFileFound : Bool
  /-- `program.getSemanticDiagnostics(sourceFile)`. -/
  diagnostics : List Diagnostic
  /-- the index of the quick-pick item the user chooses (`none` = dismissed;
  an out-of-range index also stands for no chosen item). -/
  userPick : Option Nat
  /-- `context.secrets.get('apiKey')`. -/
  storedApiKey : Option String
  /-- `vscode.window.activeTextEditor?.document` at the re-check after
  selection (lines 202-209 of `extension.ts`). -/
  activeEditorAtSuggest : Option EditorDocument
  /-- the OpenAI chat-completion client. -/
  chatService : ChatService

/-- The part of `getTypescriptErrors` that runs once a quick-pick item has
been selected (lines 192-220 of `extension.ts`).  JavaScript's
`if (errorMessage)` treats both `undefined` and the empty string as false,
and so does `if (!apiKey)`; both tests are modelled accordingly.  Returns
the value `getTypescriptErrors` returns from this point (`none` models the
bare `return;` statements, which return `undefined`) together with the
events emitted after the quick pick. -/
def handleSelected (env : Env) (diagnostics : List Diagnostic)
    (selectedErrorLine : ErrorLine) : Option (List Diagnostic) × List Event :=
  match getErrorMessageForLine selectedErrorLine.line diagnostics with
  | none => (some diagnostics, [Event.showError "No error found on the selected line."])
  | some errorMessage =>
      if errorMessage = "" then
        (some diagnostics, [Event.showError "No error found on the selected line."])
      else
        match env.storedApiKey with
        | none => (none, [Event.showError "API Key not found. Please store your API Key first."])
        | some apiKey =>
            if apiKey = "" then
              (none, [Event.showError "API Key not found. Please store your API Key first."])
            else
              match env.activeEditorAtSuggest with
              | none => (none, [Event.showError "No active editor found."])
              | some doc =>
                  let codeSnippet := lineTextAt doc selectedErrorLine.line
                  let fileContent := docText doc
                  let r := getOpenAISuggestion env.chatService errorMessage codeSnippet
                    apiKey fileContent
                  (some diagnostics, r.2 ++ [Event.present r.1])

/-- `getTypescriptErrors(document, context)` (lines 141-223 of
`extension.ts`): the early exits return `some []`; the main path shows the
quick pick (even when `errorLines` is empty) and, when an item was chosen,
continues with `handleSelected`.  `Event.createProgram` and
`Event.getSemanticDiagnostics` mark the calls into the TypeScript compiler
API. -/
def getTypescriptErrors (env : Env) : Option (List Diagnostic) × List Event :=
  match env.workspaceRoot with
  | none => (some [], [Event.showError "No workspace folder is open."])
  | some _workspaceRoot =>
      match env.tsConfigFile with
      | none => (some [], [Event.showError "No tsconfig.json file found in the workspace."])
      | some _tsConfigFile =>
          match env.sourceFileFound with
          | false =>
              (some [], [Event.createProgram,
                Event.showError "Failed to retrieve the SourceFile object."])
          | true =>
              let diagnostics := env.diagnostics
              let errorLines := errorLinesOf diagnostics
              match env.userPick.bind (fun i => errorLines[i]?) with
              | none =>
                  (some diagnostics,
                    [Event.createProgram, Event.getSemanticDiagnostics,
                      Event.showQuickPick errorLines])
              | some selectedErrorLine =>
                  let r := handleSelected env diagnostics selectedErrorLine
                  (r.1,
                    [Event.createProgram, Event.getSemanticDiagnostics,
                      Event.showQuickPick errorLines] ++ r.2)

/-- The active editor as seen by the command callback (only its language
matters there). -/
structure ActiveDoc where
  languageId : String

/-- The `extension.getTsErrors` command callback (lines 85-106 of
`extension.ts`).  When `getTypescriptErrors` returns `undefined` (modelled
by `none`), `tsErrors.length` throws a `TypeError` and the callback stops
with no further message, so the trace ends there. -/
def runGetTsErrors (activeEditor : Option ActiveDoc) (env : Env) : List Event :=
  match activeEditor with
  | none => [Event.showError "No active editor found."]
  | some editor =>
      if editor.languageId ≠ "typescript" then
        [Event.showError "This command only works with TypeScript files."]
      else
        let r := getTypescriptErrors env
        match r.1 with
        | none => r.2
        | some tsErrors =>
            if tsErrors.length = 0 then
              r.2 ++ [Event.showInfo "No TypeScript errors found."]
            else
              r.2 ++ [Event.showError
                ("Found " ++ toString tsErrors.length ++ " TypeScript errors.")]

/-- The host secret storage (`context.secrets`), modelled as an association
list from keys to values; `store` replaces any previous value for the key. -/
def secretsStore (secrets : List (String × String)) (key value : String) :
    List (String × String) :=
  (key, value) :: secrets.filter (fun p => p.1 != key)

/-- `context.secrets.get(key)`. -/
def secretsGet (secrets : List (String × String)) (key : String) : Option String :=
  secrets.lookup key

/-- The `extension.storeApiKey` command callback (lines 107-119 of
`extension.ts`): `input` is the `showInputBox` result (`none` = cancelled);
`if (apiKey)` is false for `undefined` and for the empty string.  Returns
the updated secret store and the emitted events. -/
def runStoreApiKey (input : Option String) (secrets : List (String × String)) :
    List (String × String) × List Event :=
  match input with
  | none => (secrets, [Event.showError "No API Key provided."])
  | some apiKey =>
      if apiKey = "" then (secrets, [Event.showError "No API Key provided."])
      else
        (secretsStore secrets "apiKey" apiKey,
          [Event.storeSecret "apiKey" apiKey,
            Event.showInfo "API Key stored successfully."])

/-- `containsParts s parts` holds when the strings of `parts` occur in `s`
in the given order, on non-overlapping pieces: there is a decomposition of
`s` that interleaves the parts in order.  All candidate positions are
searched, so the predicate is exact. -/
def containsParts : List Char → List (List Char) → Bool
  | _, [] => true
  | s, p :: ps =>
      (List.range (s.length + 1)).any fun i =>
        List.isPrefixOf p (List.drop i s) && containsParts (List.drop (i + p.length) s) ps

/-! ### Helper lemmas -/

/-- Re-looking-up a line in the diagnostics list is the same as finding the
first displayed entry with that line number and taking its message. -/
theorem lookup_eq_find (l : Nat) (ds : List Diagnostic) :
    getErrorMessageForLine l ds =
      ((errorLinesOf ds).find? (fun e => e.line == l)).map ErrorLine.error := by
  induction ds with
  | nil => rfl
  | cons d ds ih =>
      by_cases h : (diagnosticPos d).1 = l
      · simp [getErrorMessageForLine, errorLinesOf, toErrorLine, h]
      · simp [getErrorMessageForLine, errorLinesOf, toErrorLine, h, ih]

/-- `List.find?` returns the element at index `i` when it satisfies the
predicate and no earlier element does. -/
theorem find?_first {α : Type} (p : α → Bool) :
    ∀ (l : List α) (i : Nat) (h : i < l.length),
      p (l.get ⟨i, h⟩) = true →
      (∀ j (hj : j < l.length), j < i → p (l.get ⟨j, hj⟩) = false) →
      l.find? p = some (l.get ⟨i, h⟩) := by
  intro l
  induction l with
  | nil => intro i h; exact absurd h (Nat.not_lt_zero i)
  | cons a t ih =>
      intro i h hp hfirst
      cases i with
      | zero => exact List.find?_cons_of_pos t hp
      | succ n =>
          have ha : p a = false := hfirst 0 (Nat.succ_pos t.length) (Nat.succ_pos n)
          have h' : n < t.length := Nat.lt_of_succ_lt_succ h
          rw [List.find?_cons_of_neg t (by simp [ha])]
          exact ih n h' hp
            (fun j hj hlt => hfirst (j + 1) (Nat.succ_lt_succ hj) (Nat.succ_lt_succ hlt))

/-! ### C1 -/

/-- C1 (counterexample): with two diagnostics on the same line, entry 1 of
the displayed list is labelled with message "B" and line number 0, yet
`getErrorMessageForLine 0` returns the first matching diagnostic's message
"A", which differs from the displayed one.  The claimed round trip fails. -/
theorem C1_counterexample :
    ((errorLinesOf [⟨none, MessageText.str "A"⟩, ⟨none, MessageText.str "B"⟩]).get? 1).map
        ErrorLine.error = some "B" ∧
    ((errorLinesOf [⟨none, MessageText.str "A"⟩, ⟨none, MessageText.str "B"⟩]).get? 1).map
        ErrorLine.line = some 0 ∧
    getErrorMessageForLine 0 [⟨none, MessageText.str "A"⟩, ⟨none, MessageText.str "B"⟩] =
      some "A" ∧
    (some "A" : Option String) ≠ some "B" := by
  refine ⟨rfl, rfl, rfl, by decide⟩

/-- C1 (amended): selecting entry `i` and re-looking-up by its line number
returns the displayed message, provided entry `i` is the first displayed
entry with that line number.  (Without that proviso the round trip fails,
see the counterexample.) -/
theorem C1_roundtrip_first_match (ds : List Diagnostic) (i : Nat)
    (h : i < (errorLinesOf ds).length)
    (hfirst : ∀ j (hj : j < (errorLinesOf ds).length), j < i →
        ((errorLinesOf ds).get ⟨j, hj⟩).line ≠ ((errorLinesOf ds).get ⟨i, h⟩).line) :
    getErrorMessageForLine ((errorLinesOf ds).get ⟨i, h⟩).line ds =
      some ((errorLinesOf ds).get ⟨i, h⟩).error := by
  rw [lookup_eq_find]
  rw [find?_first (fun e => e.line == ((errorLinesOf ds).get ⟨i, h⟩).line) (errorLinesOf ds) i h
    (by simp) (fun j hj hlt => by simpa using hfirst j hj hlt)]
  rfl

/-- C1 (witness): with two diagnostics on distinct lines 0 and 3, selecting
entry 1 and re-looking-up returns the displayed message "B". -/
theorem C1_roundtrip_first_match_witness :
    getErrorMessageForLine
        ((errorLinesOf [⟨none, MessageText.str "A"⟩, ⟨some (3, 0), MessageText.str "B"⟩]).get
          ⟨1, by decide⟩).line
        [⟨none, MessageText.str "A"⟩, ⟨some (3, 0), MessageText.str "B"⟩] = some "B" := by
  exact C1_roundtrip_first_match
    [⟨none, MessageText.str "A"⟩, ⟨some (3, 0), MessageText.str "B"⟩] 1 (by decide) (by decide)

/-! ### C2 -/

set_option maxRecDepth 400000 in
/-- C2 (code bug, evaluation at the failing input): with diagnostic message
"1", line text "2" and full file text "3", the call-site composition
`getOpenAISuggestion(errorMessage, codeSnippet, apiKey, fileContent)` builds
the prompt `promptContent "1" "2" "3"`, whose request message is shown
explicitly below: the full file text is interpolated into the slot labelled
"the line that it is thrown from" and the line text into the slot labelled
"the surrounding code".  Consequently the prompt does not contain message,
line text, file text in that order (third conjunct), but does contain
message, file text, line text in that order (fourth conjunct). -/
theorem C2_prompt_swapped :
    (mkChatRequest "1" "2" "3").messages =
      [{ role := "user", content := promptContent "1" "2" "3" }] ∧
    promptContent "1" "2" "3" =
      "Act as a TypeScript engineer. You received the following error: 1. This is the line that it is thrown from: 3. Here is the surrounding code with the snippet I pasted included: 2. Explain the error with better detail from the context." ∧
    containsParts (promptContent "1" "2" "3").data ["1".data, "2".data, "3".data] = false ∧
    containsParts (promptContent "1" "2" "3").data ["1".data, "3".data, "2".data] = true := by
  refine ⟨rfl, rfl, by decide, by decide⟩

/-! ### C3 -/

/-- An environment whose analysis succeeds with zero diagnostics. -/
def envC3 : Env :=
  { workspaceRoot := some "w", tsConfigFile := some "t", sourceFileFound := true,
    diagnostics := [], userPick := none, storedApiKey := none,
    activeEditorAtSuggest := none, chatService := fun _ _ => Except.error "" }

/-- C3 (counterexample): with zero diagnostics the command still performs
the selection step: `showQuickPick` is invoked (with an empty item list)
before the informational message is shown, contradicting "performs no
selection step". -/
theorem C3_counterexample :
    runGetTsErrors (some ⟨"typescript"⟩) envC3 =
      [Event.createProgram, Event.getSemanticDiagnostics, Event.showQuickPick [],
        Event.showInfo "No TypeScript errors found."] ∧
    Event.showQuickPick [] ∈ runGetTsErrors (some ⟨"typescript"⟩) envC3 := by
  refine ⟨rfl, by decide⟩

/-- C3 (amended): when the diagnostics service returns zero diagnostics the
workflow shows the informational message `No TypeScript errors found.` (not
an error message) and performs no completion request and no presentation --
but the quick-pick selection prompt is still displayed (with an empty list)
before the informational message. -/
theorem C3_empty_diagnostics (env : Env) (ed : ActiveDoc)
    (hl : ed.languageId = "typescript")
    (hw : env.workspaceRoot.isSome = true) (hc : env.tsConfigFile.isSome = true)
    (hs : env.sourceFileFound = true) (hd : env.diagnostics = []) :
    runGetTsErrors (some ed) env =
      [Event.createProgram, Event.getSemanticDiagnostics, Event.showQuickPick [],
        Event.showInfo "No TypeScript errors found."] := by
  obtain ⟨w, hw⟩ := Option.isSome_iff_exists.mp hw
  obtain ⟨c, hc⟩ := Option.isSome_iff_exists.mp hc
  cases hup : env.userPick with
  | none => simp [runGetTsErrors, getTypescriptErrors, hl, hw, hc, hs, hd, hup, errorLinesOf]
  | some i => simp [runGetTsErrors, getTypescriptErrors, hl, hw, hc, hs, hd, hup, errorLinesOf]

/-- C3 (witness): the amended statement at the concrete environment. -/
theorem C3_empty_diagnostics_witness :
    runGetTsErrors (some ⟨"typescript"⟩) envC3 =
      [Event.createProgram, Event.getSemanticDiagnostics, Event.showQuickPick [],
        Event.showInfo "No TypeScript errors found."] :=
  C3_empty_diagnostics envC3 ⟨"typescript"⟩ rfl rfl rfl rfl rfl

/-! ### C4 -/

/-- C4: if the completion service throws, `getOpenAISuggestion` logs the
error and returns the empty string (it never propagates the failure), and
once a quick-pick entry was selected (with a non-empty matched message), a
credential existed and an editor was active, the workflow still presents
the (empty) suggestion: the trace ends with the logged error and
`present ""`. -/
theorem C4_error_swallowed (env : Env) (sel : ErrorLine) (m k err : String)
    (doc : EditorDocument)
    (hw : env.workspaceRoot.isSome = true) (hc : env.tsConfigFile.isSome = true)
    (hs : env.sourceFileFound = true)
    (hp : env.userPick.bind (fun i => (errorLinesOf env.diagnostics)[i]?) = some sel)
    (hm : getErrorMessageForLine sel.line env.diagnostics = some m) (hm2 : m ≠ "")
    (hk : env.storedApiKey = some k) (hk2 : k ≠ "")
    (hdoc : env.activeEditorAtSuggest = some doc)
    (hsvc : env.chatService k (mkChatRequest m (lineTextAt doc sel.line) (docText doc)) =
      Except.error err) :
    (getOpenAISuggestion env.chatService m (lineTextAt doc sel.line) k (docText doc)).1 = "" ∧
    (getTypescriptErrors env).2 =
      [Event.createProgram, Event.getSemanticDiagnostics,
        Event.showQuickPick (errorLinesOf env.diagnostics),
        Event.chatRequest (mkChatRequest m (lineTextAt doc sel.line) (docText doc)),
        Event.logError, Event.present ""] := by
  obtain ⟨w, hw⟩ := Option.isSome_iff_exists.mp hw
  obtain ⟨c, hc⟩ := Option.isSome_iff_exists.mp hc
  constructor
  · simp [getOpenAISuggestion, hsvc]
  · simp [getTypescriptErrors, hw, hc, hs, hp, handleSelected, hm, hm2, hk, hk2, hdoc,
      getOpenAISuggestion, hsvc]

/-- An environment in which every step succeeds except the completion call,
which always throws. -/
def envC4 : Env :=
  { workspaceRoot := some "w", tsConfigFile := some "t", sourceFileFound := true,
    diagnostics := [⟨none, MessageText.str "E"⟩], userPick := some 0,
    storedApiKey := some "K", activeEditorAtSuggest := some ⟨["c"]⟩,
    chatService := fun _ _ => Except.error "boom" }

/-- C4 (witness): at the concrete failing service, the suggestion is the
empty string and the command still presents it. -/
theorem C4_error_swallowed_witness :
    (getOpenAISuggestion envC4.chatService "E" "c" "K" "c").1 = "" ∧
    (getTypescriptErrors envC4).2 =
      [Event.createProgram, Event.getSemanticDiagnostics,
        Event.showQuickPick [⟨"Line 1: E", 0, 0, "E"⟩],
        Event.chatRequest (mkChatRequest "E" "c" "c"),
        Event.logError, Event.present ""] :=
  C4_error_swallowed envC4 ⟨"Line 1: E", 0, 0, "E"⟩ "E" "K" "boom" ⟨["c"]⟩
    rfl rfl rfl rfl rfl (by decide) rfl (by decide) rfl rfl

/-! ### C5 -/

/-- With no stored credential, the post-selection handler emits one of the
two abort error messages only. -/
theorem handleSelected_sans_key (envN : Env) (hkN : envN.storedApiKey = none)
    (ds : List Diagnostic) (sel : ErrorLine) :
    (handleSelected envN ds sel).2 =
        [Event.showError "No error found on the selected line."] ∨
    (handleSelected envN ds sel).2 =
        [Event.showError "API Key not found. Please store your API Key first."] := by
  unfold handleSelected
  cases hm : getErrorMessageForLine sel.line ds with
  | none => left; rfl
  | some m =>
      by_cases hm2 : m = ""
      · left; simp [hm2]
      · right; simp [hm2, hkN]

/-- With no stored credential, no run of `getTypescriptErrors` ever issues a
completion request or presents a suggestion. -/
theorem trace_sans_key (envN : Env) (hkN : envN.storedApiKey = none) :
    (∀ r, Event.chatRequest r ∉ (getTypescriptErrors envN).2) ∧
    (∀ s, Event.present s ∉ (getTypescriptErrors envN).2) := by
  constructor <;> intro x <;>
    (cases hw : envN.workspaceRoot with
     | none => simp [getTypescriptErrors, hw]
     | some w =>
     cases hc : envN.tsConfigFile with
     | none => simp [getTypescriptErrors, hw, hc]
     | some c =>
     cases hs : envN.sourceFileFound with
     | false => simp [getTypescriptErrors, hw, hc, hs]
     | true =>
     cases hp : envN.userPick.bind (fun i => (errorLinesOf envN.diagnostics)[i]?) with
     | none => simp [getTypescriptErrors, hw, hc, hs, hp]
     | some sel =>
         rcases handleSelected_sans_key envN hkN envN.diagnostics sel with hk | hk <;>
           simp [getTypescriptErrors, hw, hc, hs, hp, hk])

/-- C5: once a quick-pick entry is selected (with a non-empty matched
message) and no credential is stored under `apiKey`, the workflow shows the
`API Key not found` error and stops: no completion request is issued and
nothing is presented.  The last conjunct states the no-call guarantee for
every environment without a stored credential, with no further premises. -/
theorem C5_missing_credential (env : Env) (sel : ErrorLine) (m : String)
    (hw : env.workspaceRoot.isSome = true) (hc : env.tsConfigFile.isSome = true)
    (hs : env.sourceFileFound = true)
    (hp : env.userPick.bind (fun i => (errorLinesOf env.diagnostics)[i]?) = some sel)
    (hm : getErrorMessageForLine sel.line env.diagnostics = some m) (hm2 : m ≠ "")
    (hk : env.storedApiKey = none) :
    (getTypescriptErrors env).2 =
      [Event.createProgram, Event.getSemanticDiagnostics,
        Event.showQuickPick (errorLinesOf env.diagnostics),
        Event.showError "API Key not found. Please store your API Key first."] ∧
    (∀ r, Event.chatRequest r ∉ (getTypescriptErrors env).2) ∧
    (∀ s, Event.present s ∉ (getTypescriptErrors env).2) ∧
    (∀ envN : Env, envN.storedApiKey = none →
      (∀ r, Event.chatRequest r ∉ (getTypescriptErrors envN).2) ∧
      (∀ s, Event.present s ∉ (getTypescriptErrors envN).2)) := by
  obtain ⟨w, hw⟩ := Option.isSome_iff_exists.mp hw
  obtain ⟨c, hc⟩ := Option.isSome_iff_exists.mp hc
  have htrace : (getTypescriptErrors env).2 =
      [Event.createProgram, Event.getSemanticDiagnostics,
        Event.showQuickPick (errorLinesOf env.diagnostics),
        Event.showError "API Key not found. Please store your API Key first."] := by
    simp [getTypescriptErrors, hw, hc, hs, hp, handleSelected, hm, hm2, hk]
  refine ⟨htrace, ?_, ?_, fun envN hkN => trace_sans_key envN hkN⟩
  · intro r
    rw [htrace]
    simp
  · intro s
    rw [htrace]
    simp

/-- An environment with one diagnostic selected but no stored API key. -/
def envC5 : Env :=
  { workspaceRoot := some "w", tsConfigFile := some "t", sourceFileFound := true,
    diagnostics := [⟨none, MessageText.str "E"⟩], userPick := some 0,
    storedApiKey := none, activeEditorAtSuggest := some ⟨["c"]⟩,
    chatService := fun _ _ => Except.error "" }

/-- C5 (witness): at the concrete environment the trace ends with the
missing-credential error. -/
theorem C5_missing_credential_witness :
    (getTypescriptErrors envC5).2 =
      [Event.createProgram, Event.getSemanticDiagnostics,
        Event.showQuickPick [⟨"Line 1: E", 0, 0, "E"⟩],
        Event.showError "API Key not found. Please store your API Key first."] :=
  (C5_missing_credential envC5 ⟨"Line 1: E", 0, 0, "E"⟩ "E"
    rfl rfl rfl rfl rfl (by decide) rfl).1

/-! ### C6 -/

/-- C6: when no `tsconfig.json` is found the workflow shows the
configuration error and returns at once: no program is constructed and no
diagnostics are requested. -/
theorem C6_no_tsconfig (env : Env)
    (hw : env.workspaceRoot.isSome = true) (hc : env.tsConfigFile = none) :
    getTypescriptErrors env =
      (some [], [Event.showError "No tsconfig.json file found in the workspace."]) ∧
    Event.createProgram ∉ (getTypescriptErrors env).2 ∧
    Event.getSemanticDiagnostics ∉ (getTypescriptErrors env).2 := by
  obtain ⟨w, hw⟩ := Option.isSome_iff_exists.mp hw
  have h : getTypescriptErrors env =
      (some [], [Event.showError "No tsconfig.json file found in the workspace."]) := by
    simp [getTypescriptErrors, hw, hc]
  refine ⟨h, ?_, ?_⟩ <;> rw [h] <;> simp

/-- An environment with a workspace but no discoverable `tsconfig.json`. -/
def envC6 : Env :=
  { workspaceRoot := some "w", tsConfigFile := none, sourceFileFound := true,
    diagnostics := [], userPick := none, storedApiKey := none,
    activeEditorAtSuggest := none, chatService := fun _ _ => Except.error "" }

/-- C6 (witness): at the concrete environment. -/
theorem C6_no_tsconfig_witness :
    getTypescriptErrors envC6 =
      (some [], [Event.showError "No tsconfig.json file found in the workspace."]) :=
  (C6_no_tsconfig envC6 rfl rfl).1

/-! ### C7 -/

/-- `true` exactly on completion-request events. -/
def isChatRequestEvent : Event → Bool
  | Event.chatRequest _ => true
  | _ => false

/-- C7: every run of `getOpenAISuggestion` issues exactly one completion
request; the request has model `gpt-3.5-turbo`, exactly one message with
role `user` (containing the assembled prompt), `max_tokens` 1000, candidate
count `n` 1 and temperature 1/2; on a successful call the result is the
first candidate's message content, and the empty string when that content
is absent. -/
theorem C7_request_shape (service : ChatService)
    (error codeSnippet apiKey lineSnippet : String) :
    (mkChatRequest error codeSnippet lineSnippet).model = "gpt-3.5-turbo" ∧
    (mkChatRequest error codeSnippet lineSnippet).messages =
      [{ role := "user", content := promptContent error codeSnippet lineSnippet }] ∧
    (mkChatRequest error codeSnippet lineSnippet).max_tokens = 1000 ∧
    (mkChatRequest error codeSnippet lineSnippet).n = 1 ∧
    (mkChatRequest error codeSnippet lineSnippet).temperature = 1 / 2 ∧
    List.countP isChatRequestEvent
      (getOpenAISuggestion service error codeSnippet apiKey lineSnippet).2 = 1 ∧
    Event.chatRequest (mkChatRequest error codeSnippet lineSnippet) ∈
      (getOpenAISuggestion service error codeSnippet apiKey lineSnippet).2 ∧
    (∀ response,
      service apiKey (mkChatRequest error codeSnippet lineSnippet) = Except.ok response →
      (getOpenAISuggestion service error codeSnippet apiKey lineSnippet).1 =
        firstChoiceContent response ∧
      (∀ s, contentChain response = some s → firstChoiceContent response = s) ∧
      (contentChain response = none → firstChoiceContent response = "")) := by
  refine ⟨rfl, rfl, rfl, rfl, rfl, ?_, ?_, ?_⟩
  · cases hs : service apiKey (mkChatRequest error codeSnippet lineSnippet) <;>
      simp [getOpenAISuggestion, hs, List.countP_cons, isChatRequestEvent]
  · cases hs : service apiKey (mkChatRequest error codeSnippet lineSnippet) <;>
      simp [getOpenAISuggestion, hs]
  · intro response hok
    refine ⟨by simp [getOpenAISuggestion, hok], ?_, ?_⟩
    · intro s hsome
      simp [firstChoiceContent, hsome]
    · intro hnone
      simp [firstChoiceContent, hnone]

/-- A response whose first candidate has content "OK". -/
def respC7 : ChatResponse := ⟨some ⟨[⟨some ⟨some "OK"⟩⟩]⟩⟩

/-- A service that always succeeds with `respC7`. -/
def svcC7 : ChatService := fun _ _ => Except.ok respC7

/-- C7 (witness): at the concrete succeeding service the suggestion is the
first candidate's content and exactly one request event is recorded. -/
theorem C7_request_shape_witness :
    (getOpenAISuggestion svcC7 "e" "c" "k" "l").1 = "OK" ∧
    List.countP isChatRequestEvent (getOpenAISuggestion svcC7 "e" "c" "k" "l").2 = 1 := by
  have h := C7_request_shape svcC7 "e" "c" "k" "l"
  have h2 := (h.2.2.2.2.2.2.2 respC7 rfl).1
  exact ⟨h2.trans rfl, h.2.2.2.2.2.1⟩

/-! ### C8 -/

/-- C8: the Store API Key command persists the entered string under
`apiKey` exactly when the input is non-empty; on cancelled (`none`) or
empty input it reports failure and leaves the store unchanged; storing a
non-empty credential and reading it back yields the identical string. -/
theorem C8_store_api_key (secrets : List (String × String)) (k : String) :
    runStoreApiKey none secrets = (secrets, [Event.showError "No API Key provided."]) ∧
    runStoreApiKey (some "") secrets = (secrets, [Event.showError "No API Key provided."]) ∧
    (k ≠ "" →
      runStoreApiKey (some k) secrets =
        (secretsStore secrets "apiKey" k,
          [Event.storeSecret "apiKey" k, Event.showInfo "API Key stored successfully."]) ∧
      secretsGet (secretsStore secrets "apiKey" k) "apiKey" = some k) := by
  refine ⟨rfl, rfl, fun hk => ⟨by simp [runStoreApiKey, hk], ?_⟩⟩
  simp [secretsGet, secretsStore, List.lookup]

/-- C8 (witness): storing "K" into an empty store succeeds and reads back. -/
theorem C8_store_api_key_witness :
    runStoreApiKey (some "K") [] =
      ([("apiKey", "K")],
        [Event.storeSecret "apiKey" "K", Event.showInfo "API Key stored successfully."]) ∧
    secretsGet (secretsStore [] "apiKey" "K") "apiKey" = some "K" := by
  have h := (C8_store_api_key [] "K").2.2 (by decide)
  exact ⟨h.1, h.2⟩

/-! ### C9 -/

/-- C9: every failed collection path of `getTypescriptErrors` (no workspace,
no `tsconfig.json`, source file not loadable) returns `some []`, the same
value as a successful run with zero diagnostics, so in the no-tsconfig case
the command shows the configuration error followed by the informational
`No TypeScript errors found.`. -/
theorem C9_failure_paths (env : Env) (ed : ActiveDoc)
    (hl : ed.languageId = "typescript")
    (hw : env.workspaceRoot.isSome = true) (hc : env.tsConfigFile = none) :
    (getTypescriptErrors env).1 = some [] ∧
    (∀ envW : Env, envW.workspaceRoot = none → (getTypescriptErrors envW).1 = some []) ∧
    (∀ envS : Env, envS.workspaceRoot.isSome = true → envS.tsConfigFile.isSome = true →
      envS.sourceFileFound = false → (getTypescriptErrors envS).1 = some []) ∧
    (∀ envZ : Env, envZ.workspaceRoot.isSome = true → envZ.tsConfigFile.isSome = true →
      envZ.sourceFileFound = true → envZ.diagnostics = [] →
      (getTypescriptErrors envZ).1 = (getTypescriptErrors env).1) ∧
    runGetTsErrors (some ed) env =
      [Event.showError "No tsconfig.json file found in the workspace.",
        Event.showInfo "No TypeScript errors found."] := by
  obtain ⟨w, hw⟩ := Option.isSome_iff_exists.mp hw
  have h1 : (getTypescriptErrors env).1 = some [] := by simp [getTypescriptErrors, hw, hc]
  refine ⟨h1, ?_, ?_, ?_, ?_⟩
  · intro envW hW
    simp [getTypescriptErrors, hW]
  · intro envS hSw hSc hSs
    obtain ⟨w2, hw2⟩ := Option.isSome_iff_exists.mp hSw
    obtain ⟨c2, hc2⟩ := Option.isSome_iff_exists.mp hSc
    simp [getTypescriptErrors, hw2, hc2, hSs]
  · intro envZ hZw hZc hZs hZd
    obtain ⟨w2, hw2⟩ := Option.isSome_iff_exists.mp hZw
    obtain ⟨c2, hc2⟩ := Option.isSome_iff_exists.mp hZc
    rw [h1]
    cases hup : envZ.userPick <;>
      simp [getTypescriptErrors, hw2, hc2, hZs, hZd, hup, errorLinesOf]
  · simp [runGetTsErrors, getTypescriptErrors, hl, hw, hc]

/-- An environment with a workspace but no `tsconfig.json` (for C9). -/
def envC9 : Env :=
  { workspaceRoot := some "w", tsConfigFile := none, sourceFileFound := true,
    diagnostics := [], userPick := none, storedApiKey := none,
    activeEditorAtSuggest := none, chatService := fun _ _ => Except.error "" }

/-- C9 (witness): at the concrete environment the collection step fails yet
the command still reports `No TypeScript errors found.`. -/
theorem C9_failure_paths_witness :
    (getTypescriptErrors envC9).1 = some [] ∧
    runGetTsErrors (some ⟨"typescript"⟩) envC9 =
      [Event.showError "No tsconfig.json file found in the workspace.",
        Event.showInfo "No TypeScript errors found."] := by
  have h := C9_failure_paths envC9 ⟨"typescript"⟩ rfl rfl rfl
  exact ⟨h.1, h.2.2.2.2⟩

/-! ### C10 -/

/-- An environment whose single diagnostic has an empty message. -/
def envC10 : Env :=
  { workspaceRoot := some "w", tsConfigFile := some "t", sourceFileFound := true,
    diagnostics := [⟨none, MessageText.str ""⟩], userPick := some 0,
    storedApiKey := some "K", activeEditorAtSuggest := some ⟨[""]⟩,
    chatService := fun _ _ => Except.error "" }

/-- C10 (counterexample): the `No error found on the selected line.` branch
is reachable: when the selected diagnostic's flattened message is the empty
string, the re-lookup succeeds but the truthiness test `if (errorMessage)`
fails and the error branch runs. -/
theorem C10_counterexample :
    getErrorMessageForLine 0 envC10.diagnostics = some "" ∧
    Event.showError "No error found on the selected line." ∈ (getTypescriptErrors envC10).2 := by
  refine ⟨rfl, by decide⟩

/-- C10 (amended): re-lookup by a displayed entry's line number always finds
a matching diagnostic (first conjunct); the `No error found on the selected
line.` branch is unreachable provided every diagnostic's flattened message
is non-empty (second conjunct) -- with an empty message the branch is
reachable, see the counterexample. -/
theorem C10_lookup_total :
    (∀ (ds : List Diagnostic) (i : Nat) (h : i < (errorLinesOf ds).length),
      (getErrorMessageForLine ((errorLinesOf ds).get ⟨i, h⟩).line ds).isSome = true) ∧
    (∀ env : Env,
      (∀ d ∈ env.diagnostics, flattenDiagnosticMessageText d.messageText "\n" ≠ "") →
      Event.showError "No error found on the selected line." ∉ (getTypescriptErrors env).2) := by
  constructor
  · intro ds i h
    have hx : ((errorLinesOf ds).find?
        (fun e => e.line == ((errorLinesOf ds).get ⟨i, h⟩).line)).isSome := by
      rw [List.find?_isSome]
      exact ⟨(errorLinesOf ds).get ⟨i, h⟩, List.get_mem _ _ _, by simp⟩
    obtain ⟨e, he⟩ := Option.isSome_iff_exists.mp hx
    rw [lookup_eq_find, he]
    rfl
  · intro env hne
    cases hw : env.workspaceRoot with
    | none => simp [getTypescriptErrors, hw]
    | some w =>
    cases hc : env.tsConfigFile with
    | none => simp [getTypescriptErrors, hw, hc]
    | some c =>
    cases hs : env.sourceFileFound with
    | false => simp [getTypescriptErrors, hw, hc, hs]
    | true =>
    cases hp : env.userPick.bind (fun i => (errorLinesOf env.diagnostics)[i]?) with
    | none => simp [getTypescriptErrors, hw, hc, hs, hp]
    | some sel =>
      obtain ⟨i, hi⟩ : ∃ i, (errorLinesOf env.diagnostics)[i]? = some sel := by
        cases hu : env.userPick with
        | none => rw [hu] at hp; simp at hp
        | some i =>
            rw [hu] at hp
            exact ⟨i, by simpa using hp⟩
      have hsel : sel ∈ errorLinesOf env.diagnostics := List.getElem?_mem hi
      have hfind : ((errorLinesOf env.diagnostics).find?
          (fun e => e.line == sel.line)).isSome := by
        rw [List.find?_isSome]
        exact ⟨sel, hsel, by simp⟩
      obtain ⟨e, he⟩ := Option.isSome_iff_exists.mp hfind
      have hee : e ∈ errorLinesOf env.diagnostics := List.mem_of_find?_eq_some he
      obtain ⟨d2, hd2, hd2e⟩ := List.mem_map.mp hee
      have hm : getErrorMessageForLine sel.line env.diagnostics = some e.error := by
        rw [lookup_eq_find, he]
        rfl
      have hmne : e.error ≠ "" := by
        rw [← hd2e]
        simpa [toErrorLine] using hne d2 hd2
      cases hk : env.storedApiKey with
      | none => simp [getTypescriptErrors, hw, hc, hs, hp, handleSelected, hm, hmne, hk]
      | some k =>
      by_cases hk2 : k = ""
      · simp [getTypescriptErrors, hw, hc, hs, hp, handleSelected, hm, hmne, hk, hk2]
      · cases hdoc : env.activeEditorAtSuggest with
        | none => simp [getTypescriptErrors, hw, hc, hs, hp, handleSelected, hm, hmne, hk, hk2, hdoc]
        | some doc =>
          cases hsvc : env.chatService k
              (mkChatRequest e.error (lineTextAt doc sel.line) (docText doc)) with
          | ok r =>
              simp [getTypescriptErrors, hw, hc, hs, hp, handleSelected, hm, hmne, hk, hk2,
                hdoc, getOpenAISuggestion, hsvc]
          | error er =>
              simp [getTypescriptErrors, hw, hc, hs, hp, handleSelected, hm, hmne, hk, hk2,
                hdoc, getOpenAISuggestion, hsvc]

/-- An environment whose single diagnostic has message "E" (for the C10
witness). -/
def envC10w : Env :=
  { workspaceRoot := some "w", tsConfigFile := some "t", sourceFileFound := true,
    diagnostics := [⟨none, MessageText.str "E"⟩], userPick := some 0,
    storedApiKey := some "K", activeEditorAtSuggest := some ⟨["c"]⟩,
    chatService := fun _ _ => Except.error "" }

/-- C10 (witness): both amended conjuncts at concrete inputs. -/
theorem C10_lookup_total_witness :
    (getErrorMessageForLine
        ((errorLinesOf [⟨none, MessageText.str "E"⟩]).get ⟨0, by decide⟩).line
        [⟨none, MessageText.str "E"⟩]).isSome = true ∧
    Event.showError "No error found on the selected line." ∉ (getTypescriptErrors envC10w).2 := by
  exact ⟨C10_lookup_total.1 [⟨none, MessageText.str "E"⟩] 0 (by decide),
    C10_lookup_total.2 envC10w (by decide)⟩

end TsErrorsGpt
